import Mathlib

/-!
Verification of the scope-manager core of the french-press garbage-collected
scope library.  `ScopeManager` and its operations (`push_scope`, `pop_scope`,
`alloc`, `load`, `store`) are embedded from `src/lib.rs`; the heap-object
identity/equality/hash layer (`JsType`) is embedded from
`src/js_types/js_type.rs`.  The scope-frame internals (`scope.rs`), the
allocation box (`alloc.rs`), the error enum (`gc_error.rs`) and the external
AST/value crates are not part of the given sources, so they are modelled from
the specification, as indicated on each definition.
-/

/-- Abstract identifier for a declared variable (the external `Binding` type):
an opaque, comparable, hashable token, modelled as a natural number. -/
abbrev Binding := Nat

/-- Inline variable payload from the external `js_types` crate, treated as an
opaque value universe. -/
abbrev JsVal := Int

/-- Variable value (`JsVar` from the external `js_types` crate): the owning
binding together with an inline payload `t` (field name as in the source). -/
structure JsVar where
  binding : Binding
  t : JsVal
deriving Repr, DecidableEq

/-- Modelled from the spec: the heap-reference marker (`JsPtrEnum` from the
external `js_types` crate), reduced to what the exit algorithm needs: the
heap object's identity token, and, for a closure payload, the exposed list
of captured tokens. -/
inductive JsPtrEnum where
  | prim (tok : Nat)
  | closure (tok : Nat) (captures : List Nat)
deriving Repr, DecidableEq

/-- Identity token of the heap object a reference marker points at. -/
def JsPtrEnum.tok : JsPtrEnum → Nat
  | .prim t => t
  | .closure t _ => t

/-- Whether the referenced heap object is a closure payload. -/
def JsPtrEnum.isClosure : JsPtrEnum → Bool
  | .prim _ => false
  | .closure _ _ => true

/-- Tokens captured by a closure payload (empty for a plain heap object). -/
def JsPtrEnum.capturedToks : JsPtrEnum → List Nat
  | .prim _ => []
  | .closure _ cs => cs

/-- Frame tag distinguishing call frames from block frames (`ScopeTag` in
`scope.rs`; the two variants are fixed by their uses in `lib.rs`). -/
inductive ScopeTag where
  | Call
  | Block
deriving Repr, DecidableEq

/-- Modelled from the spec: the error enum of `gc_error.rs` (not in the given
sources).  The three kinds and their payloads are fixed by §7 of the spec and
by the constructors used in `lib.rs`: `Scope` for underflow, `Load` carrying
the binding, `Store` carrying back the attempted value and reference. -/
inductive GcError where
  | Scope
  | Load (b : Binding)
  | Store (v : JsVar) (p : Option JsPtrEnum)
deriving Repr, DecidableEq

/-- Modelled from the spec: a scope frame (`Scope` in `scope.rs`, not in the
given sources): a mapping from bindings to variable values, a tag, and an
owned link to at most one parent frame. -/
inductive Scope where
  | mk (tag : ScopeTag) (vars : List (Binding × JsVar × Option JsPtrEnum))
       (parent : Option Scope)

/-- Tag of a frame. -/
def Scope.tag : Scope → ScopeTag
  | .mk t _ _ => t

/-- Local bindings of a frame (newest declaration first). -/
def Scope.vars : Scope → List (Binding × JsVar × Option JsPtrEnum)
  | .mk _ v _ => v

/-- Parent link of a frame (`none` only for a root frame). -/
def Scope.parent : Scope → Option Scope
  | .mk _ _ p => p

/-- First entry for a binding in a frame's local association list. -/
def lookupVars : List (Binding × JsVar × Option JsPtrEnum) → Binding →
    Option (JsVar × Option JsPtrEnum)
  | [], _ => none
  | e :: rest, b => if e.1 == b then some e.2 else lookupVars rest b

/-- Modelled from the spec: `Scope::new(tag, &alloc_box)` — a fresh frame
with the given tag, no local bindings and no parent (the allocation-box
handle carried by the Rust frame plays no role in the pure model). -/
def Scope.new (tag : ScopeTag) : Scope :=
  .mk tag [] none

/-- Modelled from the spec: `set_parent` links a frame to its lexically
enclosing frame; called exactly once, at frame creation. -/
def Scope.set_parent (s : Scope) (p : Scope) : Scope :=
  .mk s.tag s.vars (some p)

/-- Modelled from the spec: `push_var` is the allocation path — it inserts a
fresh binding into this frame and succeeds (fresh declarations cannot
collide because each binding is unique by construction). -/
def Scope.push_var (s : Scope) (var : JsVar) (ptr : Option JsPtrEnum) :
    Except GcError Scope :=
  .ok (.mk s.tag ((var.binding, var, ptr) :: s.vars) s.parent)

/-- Modelled from the spec: `get_var_copy` returns a copy of the
(value, optional heap reference) pair if the binding is declared in this
frame, and nothing (not an error) if absent; it does not walk the parent
chain — the caller continues the search. -/
def Scope.get_var_copy (s : Scope) (b : Binding) :
    Option (JsVar × Option JsPtrEnum) :=
  lookupVars s.vars b

/-- Modelled from the spec: `update_var` overwrites the binding in place and
succeeds if it already exists in this frame; if absent it fails with a
Store-class error carrying back the attempted value and reference. -/
def Scope.update_var (s : Scope) (var : JsVar) (ptr : Option JsPtrEnum) :
    Except GcError Scope :=
  if s.vars.any (fun e => e.1 == var.binding) then
    .ok (.mk s.tag
      (s.vars.map fun e =>
        if e.1 == var.binding then (var.binding, var, ptr) else e)
      s.parent)
  else
    .error (.Store var ptr)

/-- Identity tokens of the heap references held directly by this frame's
local bindings. -/
def Scope.localToks (s : Scope) : List Nat :=
  s.vars.foldr (fun e acc =>
    match e.2.2 with
    | some p => p.tok :: acc
    | none => acc) []

/-- Tokens retained at exit: every token captured by a closure declared in
this frame, plus the tokens of the closure payloads themselves. -/
def Scope.retainedToks (s : Scope) : List Nat :=
  s.vars.foldr (fun e acc =>
    match e.2.2 with
    | some p => if p.isClosure then p.tok :: p.capturedToks ++ acc
                else p.capturedToks ++ acc
    | none => acc) []

/-- Whether a closure is declared in this frame (so the frame escapes into
the closures list at exit instead of being dropped). -/
def Scope.hasEscapingClosure (s : Scope) : Bool :=
  s.vars.any fun e =>
    match e.2.2 with
    | some p => p.isClosure
    | none => false

/-- Modelled from the spec: `transfer_stack`, the exit algorithm of
`scope.rs` (not in the given sources).  It consumes the frame and returns
the parent frame when one exists, signalling the Scope underflow error
otherwise.  With `should_collect = false` the exit is purely structural:
all reference releases are skipped.  With `should_collect = true`, every
heap reference held only by this frame and not retained by a declared
closure is released from the heap, and if a closure escapes, the frame
itself moves into the closures list.  State-passing replaces the in-place
mutation of the shared heap and closures list of the Rust code. -/
def Scope.transfer_stack (s : Scope) (closures : List Scope) (heap : List Nat)
    (shouldCollect : Bool) :
    Except GcError (Option Scope × List Scope × List Nat) :=
  match s.parent with
  | none => .error .Scope
  | some p =>
    if shouldCollect then
      let retained := s.retainedToks
      let released := s.localToks.filter fun t => !(retained.contains t)
      let heap' := heap.filter fun t => !(released.contains t)
      if s.hasEscapingClosure then .ok (some p, closures ++ [s], heap')
      else .ok (some p, closures, heap')
    else
      .ok (some p, closures, heap)

/-- Modelled from the spec: the triggering-expression AST from the external
`jsrs_common` crate.  Only the distinction between a call expression and
every other expression matters to this crate (`push_scope` matches
`Exp::Call(..)` against the catch-all). -/
inductive Exp where
  | Call (callee : Nat) (args : List Nat)
  | Undefined
  | Number (n : Int)
  | Var (name : Nat)
deriving Repr, DecidableEq

/-- Whether an expression is a function-call expression. -/
def Exp.isCall : Exp → Bool
  | .Call _ _ => true
  | _ => false

/-- The scope manager of `src/lib.rs`: globals frame, current frame, the
list of capture-escaped frames, and the shared allocation box, modelled as
the list of registered heap-object identity tokens. -/
structure ScopeManager where
  globals : Scope
  curr_scope : Scope
  closures : List Scope
  alloc_box : List Nat

/-- Registers a heap reference's token with the allocation box (the box
side of the allocation path; `None` references leave the box untouched, as
the `test_alloc` test of `lib.rs` requires). -/
def registerTok (ptr : Option JsPtrEnum) (heap : List Nat) : List Nat :=
  match ptr with
  | some p => p.tok :: heap
  | none => heap

/-- `ScopeManager::new` from `src/lib.rs`: fresh Call-tagged globals and
current frames, no closures, the given allocation box. -/
def ScopeManager.new (alloc_box : List Nat) : ScopeManager :=
  { globals := Scope.new ScopeTag.Call
    curr_scope := Scope.new ScopeTag.Call
    closures := []
    alloc_box := alloc_box }

/-- `init_gc` from `src/lib.rs`: a manager over a fresh, empty allocation
box. -/
def init_gc : ScopeManager :=
  ScopeManager.new []

/-- `ScopeManager::push_scope` from `src/lib.rs`: classifies the trigger as
Call for `Exp::Call(..)` and Block otherwise, then replaces the current
frame with a fresh frame of that tag whose parent is the previous current
frame. -/
def ScopeManager.push_scope (m : ScopeManager) (exp : Exp) : ScopeManager :=
  let tag := match exp with
    | .Call _ _ => ScopeTag.Call
    | _ => ScopeTag.Block
  let parent := m.curr_scope
  { m with curr_scope := (Scope.new tag).set_parent parent }

/-- `ScopeManager::pop_scope` from `src/lib.rs`: runs the current frame's
exit algorithm; on success installs the returned parent as the new current
frame, and answers the Scope underflow error when no parent exists. -/
def ScopeManager.pop_scope (m : ScopeManager) (gc_yield : Bool) :
    Except GcError ScopeManager :=
  match m.curr_scope.transfer_stack m.closures m.alloc_box gc_yield with
  | .error e => .error e
  | .ok (some parent, closures', heap') =>
      .ok { m with curr_scope := parent, closures := closures',
                   alloc_box := heap' }
  | .ok (none, _, _) => .error .Scope

/-- `ScopeManager::alloc` from `src/lib.rs`: declares a fresh binding in the
current frame via `push_var`; any heap reference has its token registered
with the shared allocation box. -/
def ScopeManager.alloc (m : ScopeManager) (var : JsVar)
    (ptr : Option JsPtrEnum) : Except GcError ScopeManager :=
  match m.curr_scope.push_var var ptr with
  | .ok s' => .ok { m with curr_scope := s',
                           alloc_box := registerTok ptr m.alloc_box }
  | .error e => .error e

/-- `ScopeManager::load` from `src/lib.rs`: a copy from the current frame,
falling back to the globals frame, and a Load-class error carrying the
binding when neither frame declares it. -/
def ScopeManager.load (m : ScopeManager) (bnd : Binding) :
    Except GcError (JsVar × Option JsPtrEnum) :=
  match Option.or (m.curr_scope.get_var_copy bnd)
                  (m.globals.get_var_copy bnd) with
  | some vp => .ok vp
  | none => .error (.Load bnd)

/-- `ScopeManager::store` from `src/lib.rs`: tries `update_var` on the
current frame; exactly a Store-class failure diverts into `alloc` with the
carried-back value and reference, any other outcome is returned as is. -/
def ScopeManager.store (m : ScopeManager) (var : JsVar)
    (ptr : Option JsPtrEnum) : Except GcError ScopeManager :=
  match m.curr_scope.update_var var ptr with
  | .error (.Store v p) => m.alloc v p
  | .error e => .error e
  | .ok s' => .ok { m with curr_scope := s' }

/-- Heap-object value from `src/js_types/js_type.rs`: a generated identity
token `uid` (the `Uuid`, modelled as a natural number supplied at
construction) and an opaque boxed payload `thing` (the `Box<JsThing>` trait
object, modelled by an arbitrary payload type). -/
structure JsType (α : Type) where
  uid : Nat
  thing : α

/-- `JsType::new` from `src/js_types/js_type.rs`: wraps the payload with a
freshly generated identity token (`Uuid::new_v4()`); the generated token is
passed in explicitly, collision-freedom being the generator's contract. -/
def JsType.new {α : Type} (uid : Nat) (thing : α) : JsType α :=
  { uid := uid, thing := thing }

/-- The `PartialEq::eq` of `JsType`: identity tokens alone are compared,
the payload is ignored. -/
def JsType.beq {α : Type} (a b : JsType α) : Bool :=
  a.uid == b.uid

/-- The `PartialEq::ne` of `JsType`: explicitly the negation of `eq`. -/
def JsType.bne {α : Type} (a b : JsType α) : Bool :=
  !(a.beq b)

/-- The `Hash::hash` of `JsType`, as the data it feeds to a hasher whose
state is a word list: only the identity token is fed. -/
def JsType.hashInto {α : Type} (a : JsType α) (state : List Nat) : List Nat :=
  state ++ [a.uid]

/-- The `Hash::hash_slice` of `JsType`: feeds each element's identity token
to the hasher in order. -/
def JsType.hashSlice {α : Type} (data : List (JsType α)) (state : List Nat) :
    List Nat :=
  data.foldl (fun st d => st ++ [d.uid]) state

/-- A frame's local lookup misses exactly when no local entry carries the
binding. -/
theorem lookupVars_eq_none_iff
    (vars : List (Binding × JsVar × Option JsPtrEnum)) (b : Binding) :
    lookupVars vars b = none ↔ vars.any (fun e => e.1 == b) = false := by
  induction vars with
  | nil => simp [lookupVars]
  | cons e rest ih =>
    by_cases hb : (e.1 == b) = true
    · simp [lookupVars, hb]
    · simp only [Bool.not_eq_true] at hb
      simp [lookupVars, hb, ih]

/-- Claim C1: in every manager state whose current frame has no parent (in
particular a freshly initialized manager), `pop_scope` returns the Scope
underflow error for either collection flag; it never succeeds, so no new
current frame is installed and the root frame remains current. -/
theorem pop_scope_root_underflow (m : ScopeManager) (g : Bool)
    (h : m.curr_scope.parent = none) :
    m.pop_scope g = Except.error GcError.Scope := by
  simp [ScopeManager.pop_scope, Scope.transfer_stack, h]

/-- Witness for C1 at a freshly initialized manager. -/
theorem pop_scope_root_underflow_witness :
    init_gc.curr_scope.parent = none ∧
    init_gc.pop_scope false = Except.error GcError.Scope :=
  ⟨rfl, pop_scope_root_underflow init_gc false rfl⟩

/-- Claim C2: `load` returns the current frame's copy when the binding is
declared there; otherwise the globals frame's copy when declared there;
otherwise the Load-class error carrying exactly the queried binding — the
result is fully determined by those two frames' lookups. -/
theorem load_two_tier (m : ScopeManager) (b : Binding) :
    (∀ vp, m.curr_scope.get_var_copy b = some vp →
      m.load b = Except.ok vp) ∧
    (m.curr_scope.get_var_copy b = none →
      (∀ vp, m.globals.get_var_copy b = some vp →
        m.load b = Except.ok vp) ∧
      (m.globals.get_var_copy b = none →
        m.load b = Except.error (GcError.Load b))) := by
  constructor
  · intro vp h
    simp [ScopeManager.load, h, Option.or]
  · intro hc
    constructor
    · intro vp hg
      simp [ScopeManager.load, hc, hg, Option.or]
    · intro hg
      simp [ScopeManager.load, hc, hg, Option.or]

/-- Witness for C2 at a fresh manager, where both lookups miss. -/
theorem load_two_tier_witness :
    init_gc.load 0 = Except.error (GcError.Load 0) :=
  ((load_two_tier init_gc 0).2 rfl).2 rfl

/-- Claim C5: a `push_scope` of any expression followed by `pop_scope` with
`should_collect = false` succeeds and returns the manager exactly as it was
before the push: the previous current frame is current again and, the pop
being purely structural, globals, closures and the allocation box are
untouched. -/
theorem push_then_pop_structural (m : ScopeManager) (e : Exp) :
    (m.push_scope e).pop_scope false = Except.ok m := by
  cases e <;> rfl

/-- Claim C6: `push_scope` always succeeds (it is a total function on
manager states) and the new current frame is fresh, carries the Call tag
exactly when the trigger is a call expression (Block otherwise), and has
the previously current frame as its parent. -/
theorem push_scope_tags_and_links (m : ScopeManager) (e : Exp) :
    (m.push_scope e).curr_scope.parent = some m.curr_scope ∧
    (m.push_scope e).curr_scope.vars = [] ∧
    ((m.push_scope e).curr_scope.tag = ScopeTag.Call ↔ e.isCall = true) ∧
    ((m.push_scope e).curr_scope.tag = ScopeTag.Block ↔ e.isCall = false) := by
  cases e <;>
    simp [ScopeManager.push_scope, Scope.new, Scope.set_parent,
          Scope.parent, Scope.vars, Scope.tag, Exp.isCall]

/-- Claim C3: `store` first tries `update_var` on the current frame; exactly
a Store-class failure (binding not locally present) diverts into `alloc`
with the attempted value and reference, a local success is kept as is, and
the overall call always succeeds. -/
theorem store_update_then_alloc (m : ScopeManager) (var : JsVar)
    (ptr : Option JsPtrEnum) :
    (∃ m', m.store var ptr = Except.ok m') ∧
    (m.curr_scope.update_var var ptr = Except.error (GcError.Store var ptr) →
      m.store var ptr = m.alloc var ptr) ∧
    (∀ s', m.curr_scope.update_var var ptr = Except.ok s' →
      m.store var ptr = Except.ok { m with curr_scope := s' }) := by
  by_cases h : (m.curr_scope.vars.any fun e => e.1 == var.binding) = true
  · refine ⟨⟨{ m with
               curr_scope := Scope.mk m.curr_scope.tag
                 (m.curr_scope.vars.map fun e =>
                   if e.1 == var.binding then (var.binding, var, ptr) else e)
                 m.curr_scope.parent }, ?_⟩, ?_, ?_⟩
    · simp [ScopeManager.store, Scope.update_var, h]
    · intro hupd
      simp [Scope.update_var, h] at hupd
    · intro s' hupd
      simp [Scope.update_var, h] at hupd
      simp [ScopeManager.store, Scope.update_var, h, hupd]
  · simp only [Bool.not_eq_true] at h
    refine ⟨⟨{ m with
               curr_scope := Scope.mk m.curr_scope.tag
                 ((var.binding, var, ptr) :: m.curr_scope.vars)
                 m.curr_scope.parent,
               alloc_box := registerTok ptr m.alloc_box }, ?_⟩, ?_, ?_⟩
    · simp [ScopeManager.store, Scope.update_var, h, ScopeManager.alloc,
            Scope.push_var]
    · intro _
      simp [ScopeManager.store, Scope.update_var, h]
    · intro s' hupd
      simp [Scope.update_var, h] at hupd

/-- Witness for C3 on a fresh manager, where the local update fails and the
store is exactly the alloc fallback. -/
theorem store_update_then_alloc_witness :
    init_gc.store ⟨0, 1⟩ none = init_gc.alloc ⟨0, 1⟩ none :=
  (store_update_then_alloc init_gc ⟨0, 1⟩ none).2.1 rfl

/-- Claim C4: storing a binding not declared in the current frame succeeds,
and an immediate load of that binding returns exactly the stored value and
optional heap reference. -/
theorem store_then_load_roundtrip (m : ScopeManager) (var : JsVar)
    (ptr : Option JsPtrEnum)
    (h : m.curr_scope.get_var_copy var.binding = none) :
    ∃ m', m.store var ptr = Except.ok m' ∧
      m'.load var.binding = Except.ok (var, ptr) := by
  have hany : (m.curr_scope.vars.any fun e => e.1 == var.binding) = false :=
    (lookupVars_eq_none_iff m.curr_scope.vars var.binding).mp h
  refine ⟨{ m with
            curr_scope := Scope.mk m.curr_scope.tag
              ((var.binding, var, ptr) :: m.curr_scope.vars)
              m.curr_scope.parent,
            alloc_box := registerTok ptr m.alloc_box }, ?_, ?_⟩
  · simp [ScopeManager.store, Scope.update_var, hany, ScopeManager.alloc,
          Scope.push_var]
  · simp [ScopeManager.load, Scope.get_var_copy, Scope.vars, lookupVars,
          Option.or]

/-- Witness for C4 on a fresh manager and a previously undeclared binding. -/
theorem store_then_load_roundtrip_witness :
    ∃ m', init_gc.store ⟨0, 1⟩ none = Except.ok m' ∧
      m'.load 0 = Except.ok (⟨0, 1⟩, none) :=
  store_then_load_roundtrip init_gc ⟨0, 1⟩ none rfl

/-- Claim C9: `alloc` and `store` leave the globals frame and the closures
list exactly as they were; in particular neither ever creates or updates a
binding in globals. -/
theorem alloc_store_preserve_globals_closures (m : ScopeManager)
    (var : JsVar) (ptr : Option JsPtrEnum) :
    (∀ m', m.alloc var ptr = Except.ok m' →
      m'.globals = m.globals ∧ m'.closures = m.closures) ∧
    (∀ m', m.store var ptr = Except.ok m' →
      m'.globals = m.globals ∧ m'.closures = m.closures) := by
  constructor
  · intro m' h
    simp [ScopeManager.alloc, Scope.push_var] at h
    rw [← h]
    exact ⟨rfl, rfl⟩
  · intro m' h
    by_cases hany : (m.curr_scope.vars.any fun e => e.1 == var.binding) = true
    · simp [ScopeManager.store, Scope.update_var, hany] at h
      rw [← h]
      exact ⟨rfl, rfl⟩
    · simp only [Bool.not_eq_true] at hany
      simp [ScopeManager.store, Scope.update_var, hany, ScopeManager.alloc,
            Scope.push_var] at h
      rw [← h]
      exact ⟨rfl, rfl⟩

/-- Witness for C9: the alloc part applied to a fresh manager at its
computed successor state. -/
theorem alloc_store_preserve_globals_closures_witness :
    init_gc.alloc ⟨0, 1⟩ none = Except.ok
      { globals := Scope.new ScopeTag.Call
        curr_scope := Scope.mk ScopeTag.Call [(0, ⟨0, 1⟩, none)] none
        closures := []
        alloc_box := [] } ∧
    ({ globals := Scope.new ScopeTag.Call
       curr_scope := Scope.mk ScopeTag.Call [(0, ⟨0, 1⟩, none)] none
       closures := []
       alloc_box := [] } : ScopeManager).globals = init_gc.globals ∧
    ({ globals := Scope.new ScopeTag.Call
       curr_scope := Scope.mk ScopeTag.Call [(0, ⟨0, 1⟩, none)] none
       closures := []
       alloc_box := [] } : ScopeManager).closures = init_gc.closures :=
  ⟨rfl, (alloc_store_preserve_globals_closures init_gc ⟨0, 1⟩ none).1 _ rfl⟩

/-- One evaluator-driven manager operation (the four mutating entry points
of `src/lib.rs`). -/
inductive MgrOp where
  | push (e : Exp)
  | pop (gcYield : Bool)
  | allocOp (v : JsVar) (p : Option JsPtrEnum)
  | storeOp (v : JsVar) (p : Option JsPtrEnum)

/-- Runs one operation on a manager state; a failing operation leaves the
state as it was (in the Rust code a returned error mutates nothing). -/
def runOp (m : ScopeManager) : MgrOp → ScopeManager
  | .push e => m.push_scope e
  | .pop g =>
    match m.pop_scope g with
    | .ok m' => m'
    | .error _ => m
  | .allocOp v p =>
    match m.alloc v p with
    | .ok m' => m'
    | .error _ => m
  | .storeOp v p =>
    match m.store v p with
    | .ok m' => m'
    | .error _ => m

/-- Runs a sequence of operations left to right. -/
def runOps (m : ScopeManager) (ops : List MgrOp) : ScopeManager :=
  ops.foldl runOp m

/-- A successful pop leaves the globals frame untouched. -/
theorem pop_scope_preserves_globals (m : ScopeManager) (g : Bool)
    (m' : ScopeManager) (h : m.pop_scope g = Except.ok m') :
    m'.globals = m.globals := by
  unfold ScopeManager.pop_scope at h
  rcases h3 : m.curr_scope.transfer_stack m.closures m.alloc_box g with e | ⟨p?, cl, hp⟩
  · rw [h3] at h
    exact absurd h (by simp)
  · rw [h3] at h
    cases p? with
    | some p =>
      simp at h
      rw [← h]
    | none =>
      exact absurd h (by simp)

/-- No single operation changes the globals frame. -/
theorem runOp_preserves_globals (m : ScopeManager) (op : MgrOp) :
    (runOp m op).globals = m.globals := by
  cases op with
  | push e => rfl
  | pop g =>
    simp only [runOp]
    rcases h : m.pop_scope g with e | m'
    · rfl
    · exact pop_scope_preserves_globals m g m' h
  | allocOp v p =>
    simp only [runOp]
    rcases h : m.alloc v p with e | m'
    · rfl
    · simp [ScopeManager.alloc, Scope.push_var] at h
      rw [← h]
  | storeOp v p =>
    simp only [runOp]
    rcases h : m.store v p with e | m'
    · rfl
    · by_cases hany : (m.curr_scope.vars.any fun e => e.1 == v.binding) = true
      · simp [ScopeManager.store, Scope.update_var, hany] at h
        rw [← h]
      · simp only [Bool.not_eq_true] at hany
        simp [ScopeManager.store, Scope.update_var, hany, ScopeManager.alloc,
              Scope.push_var] at h
        rw [← h]

/-- No sequence of operations changes the globals frame. -/
theorem runOps_preserves_globals (ops : List MgrOp) :
    ∀ m : ScopeManager, (runOps m ops).globals = m.globals := by
  induction ops with
  | nil => intro m; rfl
  | cons op rest ih =>
    intro m
    show (runOps (runOp m op) rest).globals = m.globals
    rw [ih (runOp m op), runOp_preserves_globals]

/-- Claim C7: a binding declared in the globals frame stays loadable with
its global value and reference across every sequence of `push_scope`,
`pop_scope`, `alloc` and `store` operations, in every reached state whose
current frame does not shadow it. -/
theorem global_binding_stays_loadable (m0 : ScopeManager) (ops : List MgrOp)
    (b : Binding) (v : JsVar) (p : Option JsPtrEnum)
    (hg : m0.globals.get_var_copy b = some (v, p))
    (hns : (runOps m0 ops).curr_scope.get_var_copy b = none) :
    (runOps m0 ops).load b = Except.ok (v, p) := by
  have hgl : (runOps m0 ops).globals = m0.globals :=
    runOps_preserves_globals ops m0
  simp [ScopeManager.load, hns, hgl, hg, Option.or]

/-- Witness for C7: a manager whose globals hold binding 5, driven through
a push, a store of another binding and a collecting pop. -/
theorem global_binding_stays_loadable_witness :
    (runOps { globals := Scope.mk ScopeTag.Call [(5, ⟨5, 7⟩, none)] none
              curr_scope := Scope.new ScopeTag.Call
              closures := []
              alloc_box := [] }
        [MgrOp.push Exp.Undefined, MgrOp.storeOp ⟨1, 2⟩ none,
         MgrOp.pop true]).load 5 = Except.ok (⟨5, 7⟩, none) :=
  global_binding_stays_loadable
    { globals := Scope.mk ScopeTag.Call [(5, ⟨5, 7⟩, none)] none
      curr_scope := Scope.new ScopeTag.Call
      closures := []
      alloc_box := [] }
    [MgrOp.push Exp.Undefined, MgrOp.storeOp ⟨1, 2⟩ none, MgrOp.pop true]
    5 ⟨5, 7⟩ none rfl rfl

/-- Claim C8: `JsType` equality is identity equality — two values compare
equal exactly when their generated identity tokens are equal, regardless of
payload; two constructions with distinct tokens (collision-freedom) are
unequal even with identical payloads; and `ne` is the negation of `eq`. -/
theorem jsType_identity_equality {α : Type} :
    (∀ a b : JsType α, a.beq b = true ↔ a.uid = b.uid) ∧
    (∀ (u1 u2 : Nat) (th : α), u1 ≠ u2 →
      (JsType.new u1 th).beq (JsType.new u2 th) = false) ∧
    (∀ a b : JsType α, a.bne b = !(a.beq b)) := by
  refine ⟨?_, ?_, ?_⟩
  · intro a b
    simp [JsType.beq]
  · intro u1 u2 th hne
    simp [JsType.new, JsType.beq]
    exact hne
  · intro a b
    rfl

/-- Witness for C8: two constructions with distinct tokens and the same
payload compare unequal. -/
theorem jsType_identity_equality_witness :
    (JsType.new 0 (0 : Nat)).beq (JsType.new 1 (0 : Nat)) = false :=
  jsType_identity_equality.2.1 0 1 0 (by decide)

/-- Claim C10: `Hash` is consistent with equality — equal `JsType` values
feed identical data (the identity token alone) to any hasher state, so
equal values hash equal. -/
theorem jsType_hash_consistent_with_eq {α : Type} (a b : JsType α)
    (st : List Nat) (h : a.beq b = true) :
    a.hashInto st = b.hashInto st := by
  have huid : a.uid = b.uid := by
    simpa [JsType.beq] using h
  simp [JsType.hashInto, huid]

/-- Witness for C10: two values with the same token but different payloads
are equal and hash identically. -/
theorem jsType_hash_consistent_with_eq_witness :
    (⟨0, 5⟩ : JsType Nat).beq ⟨0, 9⟩ = true ∧
    (⟨0, 5⟩ : JsType Nat).hashInto [] = (⟨0, 9⟩ : JsType Nat).hashInto [] :=
  ⟨rfl, jsType_hash_consistent_with_eq ⟨0, 5⟩ ⟨0, 9⟩ [] rfl⟩
